import Mathlib

/-!
Shallow embedding of the segment-criteria evaluator, campaign lifecycle
manager and analytics aggregator of the crm-marketing-service repository
(src/marketing_service/services.py and src/marketing_service/models.py),
together with proofs of the specified properties.

JSON-typed Python values that flow through the evaluator (customer
attribute values, rule constants, demographic bags) are modelled by the
inductive `Value`; SQL float columns and Python floats are modelled by ℚ;
`datetime` instants are modelled by an abstract integer clock.
-/

namespace CrmMarketing

/-- A Python value as it appears in the segment evaluator: `None`, a string,
a number (Python int and float collapsed into ℚ), a list, or a JSON object
(string-keyed dict, modelled as an ordered association list as produced by
`json.loads`). -/
inductive Value where
  | null : Value
  | str : String → Value
  | num : ℚ → Value
  | list : List Value → Value
  | dict : List (String × Value) → Value
deriving Repr

mutual

/-- Python `==` on `Value`s (structural; Python int/float equality is
subsumed by the ℚ representation). -/
def Value.beq : Value → Value → Bool
  | .null, .null => true
  | .str a, .str b => a == b
  | .num a, .num b => a == b
  | .list a, .list b => Value.beqList a b
  | .dict a, .dict b => Value.beqDict a b
  | _, _ => false

/-- Elementwise Python `==` on lists. -/
def Value.beqList : List Value → List Value → Bool
  | [], [] => true
  | x :: xs, y :: ys => Value.beq x y && Value.beqList xs ys
  | _, _ => false

/-- Entrywise Python `==` on dicts (insertion order as produced by
`json.loads` of the stored payload). -/
def Value.beqDict : List (String × Value) → List (String × Value) → Bool
  | [], [] => true
  | (k, v) :: xs, (k2, w) :: ys => k == k2 && Value.beq v w && Value.beqDict xs ys
  | _, _ => false

end

instance : BEq Value := ⟨Value.beq⟩

/-- Fold a digit list into a natural number. -/
def digitsToNat (cs : List Char) : Nat :=
  cs.foldl (fun a c => a * 10 + (c.toNat - 48)) 0

/-- Python `float(s)` on a string, restricted to the decimal-literal
fragment (optional surrounding spaces, optional sign, digits with an
optional fractional part, optional decimal exponent). A string outside
this fragment raises `ValueError` in Python, modelled as `none`. -/
def pyFloatOfString (s : String) : Option ℚ :=
  let cs := s.toList.dropWhile (fun c => c == ' ')
  let cs := (cs.reverse.dropWhile (fun c => c == ' ')).reverse
  let (sign, cs) : ℚ × List Char :=
    match cs with
    | '-' :: rest => (-1, rest)
    | '+' :: rest => (1, rest)
    | _ => (1, cs)
  let (intPart, cs) := cs.span Char.isDigit
  let (fracPart, cs) : Option (List Char) × List Char :=
    match cs with
    | '.' :: rest =>
      let (f, r) := rest.span Char.isDigit
      (some f, r)
    | _ => (none, cs)
  if intPart.isEmpty && (fracPart.getD []).isEmpty then none
  else
    let mantissa : ℚ :=
      (digitsToNat intPart : ℚ) +
        (digitsToNat (fracPart.getD []) : ℚ) / ((10 : ℚ) ^ (fracPart.getD []).length)
    match cs with
    | [] => some (sign * mantissa)
    | 'e' :: rest | 'E' :: rest =>
      let (esign, rest) : Int × List Char :=
        match rest with
        | '-' :: r => (-1, r)
        | '+' :: r => (1, r)
        | _ => (1, rest)
      let (ds, rest) := rest.span Char.isDigit
      if ds.isEmpty || !rest.isEmpty then none
      else some (sign * mantissa * (10 : ℚ) ^ (esign * (digitsToNat ds : Int)))
    | _ => none

/-- Python `float(v)`: numbers coerce exactly, numeric strings parse,
everything else (`None`, lists, dicts, non-numeric strings) raises
`ValueError`/`TypeError`, modelled as `none`. -/
def Value.float? : Value → Option ℚ
  | .num q => some q
  | .str s => pyFloatOfString s
  | _ => Option.none

mutual

/-- Python `repr(v)` for the values above (float rendering approximated by
the exact rational rendering; no claim depends on the textual form of a
non-integer number). -/
def Value.pyRepr : Value → String
  | .null => "None"
  | .str s => "\x27" ++ s ++ "\x27"
  | .num q => if q.den = 1 then toString q.num else toString q
  | .list l => "[" ++ Value.pyReprList l ++ "]"
  | .dict l => "\x7b" ++ Value.pyReprDict l ++ "\x7d"

/-- Comma-joined `repr`s of list elements. -/
def Value.pyReprList : List Value → String
  | [] => ""
  | [x] => Value.pyRepr x
  | x :: xs => Value.pyRepr x ++ ", " ++ Value.pyReprList xs

/-- Comma-joined `repr`s of dict entries. -/
def Value.pyReprDict : List (String × Value) → String
  | [] => ""
  | [(k, v)] => "\x27" ++ k ++ "\x27: " ++ Value.pyRepr v
  | (k, v) :: xs => "\x27" ++ k ++ "\x27: " ++ Value.pyRepr v ++ ", " ++ Value.pyReprDict xs

end

/-- Python `str(v)`: the string itself for strings, `repr` otherwise. -/
def Value.pyStr : Value → String
  | .str s => s
  | v => Value.pyRepr v

/-- Python `str.lower()` (ASCII case folding, as used by the `contains`
operator). -/
def strLower (s : String) : String :=
  ⟨s.toList.map Char.toLower⟩

/-- Worker for `pySplitDot`: accumulate the current chunk (reversed) while
scanning. -/
def pySplitDotAux : List Char → List Char → List String
  | [], acc => [⟨acc.reverse⟩]
  | c :: cs, acc =>
    if c = '.' then ⟨acc.reverse⟩ :: pySplitDotAux cs [] else pySplitDotAux cs (c :: acc)

/-- Python `field_path.split('.')`: always non-empty, `"".split('.') == ['']`. -/
def pySplitDot (s : String) : List String :=
  pySplitDotAux s.toList []

/-- Python substring test `needle in hay` on strings. -/
def strContainsSub (hay needle : String) : Bool :=
  let h := hay.toList
  let n := needle.toList
  (List.range (h.length + 1)).any fun i => n.isPrefixOf (h.drop i)

/-- Python membership test `actual in expected`. `some b` is a normal
result; `Option.none` models the `TypeError` Python raises when `expected`
is not a container (or a string tested against a non-string), which
`evaluate_rule` catches. Dict membership tests keys (JSON keys are
strings). -/
def pyIn (actual expected : Value) : Option Bool :=
  match expected with
  | .list l => some (l.any fun x => Value.beq x actual)
  | .str s =>
    match actual with
    | .str a => some (strContainsSub s a)
    | _ => Option.none
  | .dict d =>
    match actual with
    | .str a => some (d.any fun kv => kv.1 == a)
    | .num _ => some false
    | .null => some false
    | _ => Option.none
  | _ => Option.none

/-- `float(x) OP float(y)` under the surrounding
`try/except (ValueError, TypeError)`: when either coercion fails the
raised error is caught and the rule is `False`. -/
def floatCmp (cmp : ℚ → ℚ → Bool) (x y : Option ℚ) : Bool :=
  match x, y with
  | some a, some b => cmp a b
  | _, _ => false

/-- `evaluate_rule` from services.py: evaluate a single rule against the
resolved customer value. A `None` actual value short-circuits to `False`;
the whole operator dispatch runs under `try/except (ValueError, TypeError)`
returning `False`, so float-coercion failures and `in` type errors yield
`False`; an unknown operator yields `False`. -/
def evaluate_rule (actual_value : Value) (operator : String) (expected_value : Value) : Bool :=
  match actual_value with
  | .null => false
  | actual =>
    if operator = "eq" then Value.beq actual expected_value
    else if operator = "neq" then !(Value.beq actual expected_value)
    else if operator = "gt" then
      floatCmp (fun a b => decide (a > b)) actual.float? expected_value.float?
    else if operator = "gte" then
      floatCmp (fun a b => decide (a ≥ b)) actual.float? expected_value.float?
    else if operator = "lt" then
      floatCmp (fun a b => decide (a < b)) actual.float? expected_value.float?
    else if operator = "lte" then
      floatCmp (fun a b => decide (a ≤ b)) actual.float? expected_value.float?
    else if operator = "contains" then
      strContainsSub (strLower (Value.pyStr actual)) (strLower (Value.pyStr expected_value))
    else if operator = "in" then
      match pyIn actual expected_value with
      | some b => b
      | Option.none => false
    else false

/-- A customer row (models.py `Customer`): the mapped columns the evaluator
can address. The three JSON text columns are modelled post-parse: `none`
is SQL NULL, `some d` is stored JSON text `json.dumps d`. `datetime`
columns (`created_at`, `updated_at`) are outside the evaluator's reach in
this embedding and omitted. -/
structure Customer where
  id : ℚ := 0
  name : String
  email : String
  phone : Option String := Option.none
  demographics : Option (List (String × Value)) := Option.none
  purchase_history : Option (List Value) := Option.none
  behavioral_data : Option (List (String × Value)) := Option.none
  total_spent : ℚ := 0
  lifetime_value : ℚ := 0
  engagement_score : ℚ := 0
  status : String := "lead"
  lead_source : Option String := Option.none

/-- `Customer.get_demographics`: parsed JSON if the column is non-NULL,
else the empty dict. -/
def Customer.get_demographics (c : Customer) : List (String × Value) :=
  c.demographics.getD []

/-- `Customer.get_purchase_history`. -/
def Customer.get_purchase_history (c : Customer) : List Value :=
  c.purchase_history.getD []

/-- `Customer.get_behavioral_data`. -/
def Customer.get_behavioral_data (c : Customer) : List (String × Value) :=
  c.behavioral_data.getD []

/-- Python `dict.get(k)` with default `None`. -/
def dictGet (d : List (String × Value)) (k : String) : Value :=
  match d.find? (fun kv => kv.1 == k) with
  | some kv => kv.2
  | Option.none => Value.null

/-- `getattr(customer, name, None)` over the mapped data columns of the
customer row; a name that is not one of them resolves to `None`. -/
def Customer.getattr (c : Customer) (name : String) : Value :=
  if name = "id" then .num c.id
  else if name = "name" then .str c.name
  else if name = "email" then .str c.email
  else if name = "phone" then
    match c.phone with
    | some p => .str p
    | Option.none => .null
  else if name = "total_spent" then .num c.total_spent
  else if name = "lifetime_value" then .num c.lifetime_value
  else if name = "engagement_score" then .num c.engagement_score
  else if name = "status" then .str c.status
  else if name = "lead_source" then
    match c.lead_source with
    | some s => .str s
    | Option.none => .null
  else .null

/-- `get_nested_value` from services.py: resolve a dotted field path on a
customer. `demographics`/`behavioral_data` read the JSON bag (whole bag,
or `parts[1]` via `dict.get`); `purchase_history` always returns the full
list; any other head is a direct attribute lookup with default `None`. -/
def get_nested_value (customer : Customer) (field_path : String) : Value :=
  let parts := pySplitDot field_path
  let head := parts.headD ""
  if head = "demographics" then
    let data := customer.get_demographics
    if parts.length > 1 then dictGet data ((parts.drop 1).headD "") else .dict data
  else if head = "behavioral_data" then
    let data := customer.get_behavioral_data
    if parts.length > 1 then dictGet data ((parts.drop 1).headD "") else .dict data
  else if head = "purchase_history" then
    .list customer.get_purchase_history
  else
    customer.getattr head

/-- One rule dict of a criteria payload. `Option.none` fields model absent
keys, read with the defaults of `rule.get('field', '')`,
`rule.get('operator', 'eq')` and `rule.get('value')` (whose default is
Python `None`, indistinguishable here from an explicit JSON null). -/
structure Rule where
  field : Option String := Option.none
  operator : Option String := Option.none
  value : Value := Value.null

/-- A parsed criteria dict. `Option.none` models an absent `rules` /
`match` key, read with the defaults of `criteria.get('rules', [])` and
`criteria.get('match', 'all')`. -/
structure CriteriaDict where
  rules : Option (List Rule) := Option.none
  matchType : Option String := Option.none

/-- A criteria payload, as both the stored `Segment.criteria` text column
and the `criteria` argument of `evaluate_segment_criteria` are classified:
either a truthy (non-empty) string on which `json.loads` raises
`JSONDecodeError` (malformed), or a parsed criteria dict (passed as a
dict, obtained by parsing a valid JSON string, or the empty dict that
models.py's `if self.criteria` guard substitutes for a falsy stored
text). The stdlib JSON parser itself is abstracted at this boundary. -/
inductive CriteriaInput where
  | malformed (payload : String) : CriteriaInput
  | wellFormed (cd : CriteriaDict) : CriteriaInput

/-- The `json.JSONDecodeError` that `json.loads` raises on a malformed
payload; no field of it is inspected by this code. -/
inductive PyError where
  | jsonDecodeError : PyError
deriving DecidableEq, Repr

/-- The body of the rule loop in `evaluate_segment_criteria`: resolve the
field path and evaluate the rule. -/
def ruleHolds (customer : Customer) (rule : Rule) : Bool :=
  let field_path := rule.field.getD ""
  let operator := rule.operator.getD "eq"
  let value := rule.value
  evaluate_rule (get_nested_value customer field_path) operator value

/-- `evaluate_segment_criteria` from services.py: a malformed payload is
included unconditionally (`except: return True`); an empty rule list
matches everything; otherwise the rule results are combined with `all`
when `match == 'all'` and with `any` for every other match type. -/
def evaluate_segment_criteria (customer : Customer) (criteria : CriteriaInput) : Bool :=
  match criteria with
  | .malformed _ => true
  | .wellFormed cd =>
    let rules := cd.rules.getD []
    let match_type := cd.matchType.getD "all"
    if rules.isEmpty then true
    else
      let results := rules.map (fun rule => ruleHolds customer rule)
      if match_type = "all" then results.all id else results.any id

/-- A segment row (models.py `Segment`); the `criteria` text column is
modelled post-parse as a `CriteriaInput`. -/
structure Segment where
  name : String
  description : Option String := Option.none
  criteria : CriteriaInput
  segment_type : String := "manual"
  customer_count : Int := 0
  is_active : Bool := true

/-- The persisted rows the segmentation services read: the customer table
and the segment table keyed by id. -/
structure Store where
  customers : List Customer
  segments : List (Int × Segment)

/-- `Segment.query.get(segment_id)`. -/
def Store.getSegment (st : Store) (segment_id : Int) : Option Segment :=
  (st.segments.find? (fun p => p.1 == segment_id)).map Prod.snd

/-- `Segment.get_criteria` (models.py line 119): `json.loads(self.criteria)`
with no exception handler, so a truthy stored text that `json.loads`
rejects raises `JSONDecodeError`, modelled as `Option.none`. (A falsy
stored text short-circuits to the empty dict and is covered by the
`wellFormed` constructor.) -/
def Segment.get_criteria (seg : Segment) : Option CriteriaDict :=
  match seg.criteria with
  | .malformed _ => Option.none
  | .wellFormed cd => some cd

/-- `get_segment_customers` from services.py: `[]` when the segment id is
unknown; otherwise the stored criteria are parsed via
`Segment.get_criteria` — on an unparseable stored text the
`JSONDecodeError` propagates, there being no handler on this path
(the evaluator's permissive fallback only guards payloads the evaluator
itself receives as strings, and here it is handed the parsed dict) —
and every customer matching them is collected by a full table scan. -/
def get_segment_customers (st : Store) (segment_id : Int) :
    Except PyError (List Customer) :=
  match st.getSegment segment_id with
  | Option.none => Except.ok []
  | some segment =>
    match segment.get_criteria with
    | Option.none => Except.error PyError.jsonDecodeError
    | some cd =>
      Except.ok (st.customers.filter
        (fun c => evaluate_segment_criteria c (.wellFormed cd)))

/-- `refresh_segment` from services.py: recompute the matching customers
and persist their count on the segment row; `ok none` when the id is
unknown; the `JSONDecodeError` of `get_segment_customers` propagates and
nothing is written. Only `customer_count` is written on success —
membership is not materialized (the `segment_customers` association
table is never touched). -/
def refresh_segment (st : Store) (segment_id : Int) :
    Except PyError (Option Segment) :=
  match st.getSegment segment_id with
  | Option.none => Except.ok Option.none
  | some segment =>
    match get_segment_customers st segment_id with
    | Except.error e => Except.error e
    | Except.ok matching_customers =>
      Except.ok (some { segment with
                        customer_count := (matching_customers.length : Int) })

/-- An abstract instant (`datetime.utcnow()` values are only stored and
compared for identity, never inspected). -/
abbrev Time := Int

/-- A campaign result row (models.py `CampaignResult`), all columns at
their declared zero defaults. -/
structure CampaignResult where
  campaign_id : Int := 0
  total_sent : Int := 0
  delivered : Int := 0
  bounced : Int := 0
  opens : Int := 0
  clicks : Int := 0
  unsubscribes : Int := 0
  impressions : Int := 0
  conversions : Int := 0
  leads_generated : Int := 0
  leads_converted : Int := 0
  revenue_attributed : ℚ := 0
  total_cost : ℚ := 0
deriving DecidableEq, Repr

/-- A campaign row (models.py `Campaign`) with its 1:1 result
(`campaign.results`, `Option`-valued to mirror the code's
`if campaign.results:` guard). -/
structure Campaign where
  name : String
  description : Option String := Option.none
  campaign_type : String := "email"
  subject : Option String := Option.none
  content : Option String := Option.none
  segment_id : Int
  status : String := "draft"
  schedule_time : Option Time := Option.none
  start_date : Option Time := Option.none
  end_date : Option Time := Option.none
  budget : ℚ := 0
  cost_per_send : ℚ := 1 / 100
  results : Option CampaignResult := Option.none

/-- Python `int(x)` on a float: truncation toward zero. -/
def pyInt (q : ℚ) : Int := if 0 ≤ q then ⌊q⌋ else ⌈q⌉

/-- The random draws `launch_campaign` makes, one field per call site,
injected as a parameter (the code uses the unseeded global generator).
The stated ranges are: `fallbackSize ∈ [100, 500]` (randint),
`deliveryRate ∈ [0.92, 0.98]`, `emailOpenRate ∈ [0.15, 0.35]`,
`emailClickRate ∈ [0.10, 0.25]`, `socialImprMult ∈ [2, 5]` (randint),
`socialOpenRate ∈ [0.02, 0.08]`, `socialClickRate ∈ [0.20, 0.40]`,
`adsImprMult ∈ [5, 15]` (randint), `adsClickRate ∈ [0.01, 0.05]`,
`convRate ∈ [0.05, 0.20]`, `coin ∈ [0, 1)` (random.random),
`leadRate ∈ [0.10, 0.30]`, `leadConvRate ∈ [0.20, 0.40]`,
`avgOrderValue ∈ [50, 200]`. -/
structure Draws where
  fallbackSize : Int
  deliveryRate : ℚ
  emailOpenRate : ℚ
  emailClickRate : ℚ
  socialImprMult : Int
  socialOpenRate : ℚ
  socialClickRate : ℚ
  adsImprMult : Int
  adsClickRate : ℚ
  convRate : ℚ
  coin : ℚ
  leadRate : ℚ
  leadConvRate : ℚ
  avgOrderValue : ℚ

/-- The simulated-result block of `launch_campaign` (services.py lines
424-458), updating an existing result row in place: delivery, channel
specific engagement, conversions, leads and money. In the email branch
`impressions` is left untouched; in the ads/sms branch `opens` is set to
`clicks`. -/
def simulate_results (d : Draws) (campaign_type : String)
    (cost_per_send budget : ℚ) (audience_size : Int)
    (r : CampaignResult) : CampaignResult :=
  let total_sent := audience_size
  let delivered := pyInt ((audience_size : ℚ) * d.deliveryRate)
  let bounced := total_sent - delivered
  let (impressions, opens, clicks) :=
    if campaign_type = "email" then
      let opens := pyInt ((delivered : ℚ) * d.emailOpenRate)
      let clicks := pyInt ((opens : ℚ) * d.emailClickRate)
      (r.impressions, opens, clicks)
    else if campaign_type = "social" then
      let impressions := audience_size * d.socialImprMult
      let opens := pyInt ((impressions : ℚ) * d.socialOpenRate)
      let clicks := pyInt ((opens : ℚ) * d.socialClickRate)
      (impressions, opens, clicks)
    else
      let impressions := audience_size * d.adsImprMult
      let clicks := pyInt ((impressions : ℚ) * d.adsClickRate)
      (impressions, clicks, clicks)
  let raw_conversions : ℚ := (clicks : ℚ) * d.convRate
  let conversions : Int :=
    if raw_conversions < 1 ∧ 0 < clicks ∧ 1 / 2 < d.coin then 1
    else ⌈raw_conversions⌉
  let leads_generated : Int := ⌈(clicks : ℚ) * d.leadRate⌉
  let leads_converted : Int := ⌈(leads_generated : ℚ) * d.leadConvRate⌉
  { r with
    total_sent := total_sent
    delivered := delivered
    bounced := bounced
    impressions := impressions
    opens := opens
    clicks := clicks
    conversions := conversions
    leads_generated := leads_generated
    leads_converted := leads_converted
    revenue_attributed := (conversions : ℚ) * d.avgOrderValue
    total_cost := (total_sent : ℚ) * cost_per_send + budget * (1 / 2) }

/-- The audience size `launch_campaign` computes from the matching
customers of the campaign's segment: their number, or the random fallback
draw when the list is empty. -/
def launchAudience (d : Draws) (segment_customers : List Customer) : Int :=
  if segment_customers.isEmpty then d.fallbackSize else segment_customers.length

/-- `launch_campaign` from services.py on a found campaign row: a non-draft
campaign is returned unchanged (before the segment is ever consulted); a
draft campaign first queries `get_segment_customers` — whose
`JSONDecodeError` on unparseable stored criteria propagates, leaving the
campaign unwritten — and on success becomes `active` with
`start_date = now` and, when its result row exists, the simulated results
written into it. -/
def launch_campaign (st : Store) (d : Draws) (now : Time) (c : Campaign) :
    Except PyError Campaign :=
  if c.status ≠ "draft" then Except.ok c
  else
    match get_segment_customers st c.segment_id with
    | Except.error e => Except.error e
    | Except.ok segment_customers =>
      let audience_size := launchAudience d segment_customers
      let c' := { c with status := "active", start_date := some now }
      match c.results with
      | Option.none => Except.ok c'
      | some r =>
        Except.ok { c' with
          results := some (simulate_results d c.campaign_type c.cost_per_send
            c.budget audience_size r) }

/-- `pause_campaign` from services.py on a found campaign row. -/
def pause_campaign (c : Campaign) : Campaign :=
  if c.status = "active" then { c with status := "paused" } else c

/-- `resume_campaign` from services.py on a found campaign row. -/
def resume_campaign (c : Campaign) : Campaign :=
  if c.status = "paused" then { c with status := "active" } else c

/-- `complete_campaign` from services.py on a found campaign row:
unconditional. -/
def complete_campaign (now : Time) (c : Campaign) : Campaign :=
  { c with status := "completed", end_date := some now }

/-- The dict returned by `CampaignResult.calculate_metrics` (models.py):
passthrough counters plus the derived rates (Python true division,
guarded to 0 by `if denominator > 0 else 0`). -/
structure Metrics where
  campaign_id : Int
  total_sent : Int
  delivered : Int
  bounced : Int
  opens : Int
  clicks : Int
  conversions : Int
  leads_generated : Int
  leads_converted : Int
  revenue_attributed : ℚ
  total_cost : ℚ
  delivery_rate : ℚ
  open_rate : ℚ
  click_rate : ℚ
  ctr : ℚ
  conversion_rate : ℚ
  roi : ℚ
deriving DecidableEq, Repr

/-- `CampaignResult.calculate_metrics` from models.py. -/
def calculate_metrics (r : CampaignResult) : Metrics :=
  { campaign_id := r.campaign_id
    total_sent := r.total_sent
    delivered := r.delivered
    bounced := r.bounced
    opens := r.opens
    clicks := r.clicks
    conversions := r.conversions
    leads_generated := r.leads_generated
    leads_converted := r.leads_converted
    revenue_attributed := r.revenue_attributed
    total_cost := r.total_cost
    delivery_rate :=
      if r.total_sent > 0 then (r.delivered : ℚ) / (r.total_sent : ℚ) * 100 else 0
    open_rate :=
      if r.delivered > 0 then (r.opens : ℚ) / (r.delivered : ℚ) * 100 else 0
    click_rate :=
      if r.opens > 0 then (r.clicks : ℚ) / (r.opens : ℚ) * 100 else 0
    ctr :=
      if r.delivered > 0 then (r.clicks : ℚ) / (r.delivered : ℚ) * 100 else 0
    conversion_rate :=
      if r.clicks > 0 then (r.conversions : ℚ) / (r.clicks : ℚ) * 100 else 0
    roi :=
      if r.total_cost > 0 then
        (r.revenue_attributed - r.total_cost) / r.total_cost * 100
      else 0 }

/-- The dict returned by `get_analytics_overview` (services.py). -/
structure Overview where
  total_campaigns : Nat
  active_campaigns : Nat
  completed_campaigns : Nat
  draft_campaigns : Nat
  total_sent : Int
  total_opens : Int
  total_clicks : Int
  total_conversions : Int
  overall_open_rate : ℚ
  overall_click_rate : ℚ
  overall_conversion_rate : ℚ
  total_revenue : ℚ
  total_cost : ℚ
  overall_roi : ℚ
  total_customers : Nat
  total_segments : Nat
  total_leads : Nat
deriving DecidableEq, Repr

/-- `get_analytics_overview` from services.py, over the full campaign and
result tables (plus the customer and segment tables for the tail counts).
The funnel totals are the column sums over every `CampaignResult` row, and
each overall rate divides two such totals, guarded to 0 by
`if denominator > 0 else 0`. -/
def get_analytics_overview (customers : List Customer) (segments : List Segment)
    (campaigns : List Campaign) (results : List CampaignResult) : Overview :=
  let total_sent := (results.map (fun r => r.total_sent)).sum
  let total_opens := (results.map (fun r => r.opens)).sum
  let total_clicks := (results.map (fun r => r.clicks)).sum
  let total_conversions := (results.map (fun r => r.conversions)).sum
  let total_revenue := (results.map (fun r => r.revenue_attributed)).sum
  let total_cost := (results.map (fun r => r.total_cost)).sum
  { total_campaigns := campaigns.length
    active_campaigns := (campaigns.filter (fun c => c.status == "active")).length
    completed_campaigns := (campaigns.filter (fun c => c.status == "completed")).length
    draft_campaigns := (campaigns.filter (fun c => c.status == "draft")).length
    total_sent := total_sent
    total_opens := total_opens
    total_clicks := total_clicks
    total_conversions := total_conversions
    overall_open_rate :=
      if total_sent > 0 then (total_opens : ℚ) / (total_sent : ℚ) * 100 else 0
    overall_click_rate :=
      if total_opens > 0 then (total_clicks : ℚ) / (total_opens : ℚ) * 100 else 0
    overall_conversion_rate :=
      if total_clicks > 0 then (total_conversions : ℚ) / (total_clicks : ℚ) * 100 else 0
    total_revenue := total_revenue
    total_cost := total_cost
    overall_roi :=
      if total_cost > 0 then (total_revenue - total_cost) / total_cost * 100 else 0
    total_customers := customers.length
    total_segments := (segments.filter (fun s => s.is_active)).length
    total_leads := (customers.filter (fun c => c.status == "lead")).length }

/-!
## Helper lemmas
-/

theorem floatCmp_left_none (f : ℚ → ℚ → Bool) (y : Option ℚ) :
    floatCmp f Option.none y = false := by cases y <;> rfl

theorem floatCmp_right_none (f : ℚ → ℚ → Bool) (x : Option ℚ) :
    floatCmp f x Option.none = false := by cases x <;> rfl

/-- Unfolding lemma for `evaluate_rule` on a non-`None` actual value. -/
theorem evaluate_rule_eq_def (actual : Value) (op : String) (v : Value)
    (h : actual ≠ Value.null) :
    evaluate_rule actual op v =
      (if op = "eq" then Value.beq actual v
      else if op = "neq" then !(Value.beq actual v)
      else if op = "gt" then floatCmp (fun a b => decide (a > b)) actual.float? v.float?
      else if op = "gte" then floatCmp (fun a b => decide (a ≥ b)) actual.float? v.float?
      else if op = "lt" then floatCmp (fun a b => decide (a < b)) actual.float? v.float?
      else if op = "lte" then floatCmp (fun a b => decide (a ≤ b)) actual.float? v.float?
      else if op = "contains" then
        strContainsSub (strLower (Value.pyStr actual)) (strLower (Value.pyStr v))
      else if op = "in" then
        match pyIn actual v with
        | some b => b
        | Option.none => false
      else false) := by
  cases actual <;> first | (exact absurd rfl h) | rfl

/-- A failed float coercion on either side of a numeric operator is caught
and the rule is `False`. -/
theorem evaluate_rule_coercion_failure (actual : Value) (op : String) (v : Value)
    (hop : op = "gt" ∨ op = "gte" ∨ op = "lt" ∨ op = "lte")
    (hf : actual.float? = Option.none ∨ v.float? = Option.none) :
    evaluate_rule actual op v = false := by
  by_cases h : actual = Value.null
  · subst h; rfl
  · rw [evaluate_rule_eq_def actual op v h]
    rcases hop with rfl | rfl | rfl | rfl <;>
      simp only [reduceIte, String.reduceEq] <;>
      rcases hf with hf | hf <;>
      rw [hf] <;>
      first
        | exact floatCmp_left_none _ _
        | exact floatCmp_right_none _ _

/-- An operator outside the eight known ones falls through to `False`. -/
theorem evaluate_rule_unknown_op (actual : Value) (op : String) (v : Value)
    (h : op ≠ "eq" ∧ op ≠ "neq" ∧ op ≠ "gt" ∧ op ≠ "gte" ∧ op ≠ "lt" ∧
      op ≠ "lte" ∧ op ≠ "contains" ∧ op ≠ "in") :
    evaluate_rule actual op v = false := by
  by_cases hn : actual = Value.null
  · subst hn; rfl
  · rw [evaluate_rule_eq_def actual op v hn]
    obtain ⟨h1, h2, h3, h4, h5, h6, h7, h8⟩ := h
    simp [h1, h2, h3, h4, h5, h6, h7, h8]

/-- When both sides coerce, the four numeric operators compare the coerced
floats. -/
theorem evaluate_rule_numeric (actual : Value) (v : Value) (a b : ℚ)
    (ha : actual.float? = some a) (hb : v.float? = some b) :
    evaluate_rule actual "gt" v = decide (a > b) ∧
    evaluate_rule actual "gte" v = decide (a ≥ b) ∧
    evaluate_rule actual "lt" v = decide (a < b) ∧
    evaluate_rule actual "lte" v = decide (a ≤ b) := by
  have hn : actual ≠ Value.null := by
    intro h; subst h; simp [Value.float?] at ha
  refine ⟨?_, ?_, ?_, ?_⟩ <;>
    rw [evaluate_rule_eq_def actual _ v hn] <;>
    simp only [reduceIte, String.reduceEq] <;>
    rw [ha, hb] <;> rfl

/-- Launching a draft campaign whose criteria path succeeds activates it,
stamps `start_date` and, when its result row exists, writes the simulated
results. -/
theorem launch_campaign_draft (st : Store) (d : Draws) (now : Time) (c : Campaign)
    (cs : List Customer) (h : c.status = "draft")
    (hseg : get_segment_customers st c.segment_id = Except.ok cs) :
    ∀ r, c.results = some r →
      launch_campaign st d now c =
        Except.ok { c with
          status := "active"
          start_date := some now
          results := some (simulate_results d c.campaign_type c.cost_per_send c.budget
            (launchAudience d cs) r) } := by
  intro r hr
  have hcond : ¬(c.status ≠ "draft") := by simpa using h
  rw [launch_campaign, if_neg hcond, hseg, hr]

/-- The delivery fields written by `simulate_results`, independent of the
channel branch. -/
theorem simulate_results_delivery (d : Draws) (ct : String) (cps b : ℚ) (n : Int)
    (r : CampaignResult) :
    (simulate_results d ct cps b n r).total_sent = n ∧
    (simulate_results d ct cps b n r).delivered = pyInt ((n : ℚ) * d.deliveryRate) ∧
    (simulate_results d ct cps b n r).bounced = n - pyInt ((n : ℚ) * d.deliveryRate) := by
  rw [simulate_results]
  split
  all_goals simp

/-- Truncating `n * q` for a sub-unit factor `q` stays below `n`. -/
theorem pyInt_mul_le (n : Int) (q : ℚ) (hn : 0 ≤ n) (h0 : 0 ≤ q) (h1 : q ≤ 1) :
    pyInt ((n : ℚ) * q) ≤ n := by
  have hnn : (0 : ℚ) ≤ (n : ℚ) * q := mul_nonneg (by exact_mod_cast hn) h0
  rw [pyInt, if_pos hnn]
  calc ⌊(n : ℚ) * q⌋ ≤ ⌊(n : ℚ)⌋ :=
        Int.floor_le_floor (mul_le_of_le_one_right (by exact_mod_cast hn) h1)
    _ = n := Int.floor_intCast n

/-- The launch audience is never negative once the fallback draw is in its
stated range. -/
theorem launchAudience_nonneg (d : Draws) (cs : List Customer)
    (hfb : 100 ≤ d.fallbackSize) : 0 ≤ launchAudience d cs := by
  rw [launchAudience]
  split
  · omega
  · exact Int.natCast_nonneg _

/-!
## Concrete rows used by the witnesses
-/

/-- A lead with a demographics bag, as in the demo data. -/
def wCustLead : Customer :=
  { name := "John Smith"
    email := "john.smith0@example.com"
    status := "lead"
    demographics := some [("age", .num 30)] }

/-- A converted customer with no phone on file. -/
def wCustCustomer : Customer :=
  { name := "Jane Jones"
    email := "jane.jones1@example.com"
    status := "customer" }

/-- A second lead. -/
def wCustLead2 : Customer :=
  { name := "Michael Brown"
    email := "michael.brown2@example.com"
    status := "lead" }

/-- The `status == 'lead'` rule of the New Leads demo segment. -/
def wRuleLead : Rule :=
  { field := some "status", operator := some "eq", value := .str "lead" }

/-- `match: all` criteria with the single lead rule. -/
def wCdAll : CriteriaDict := { rules := some [wRuleLead], matchType := some "all" }

/-- `match: any` criteria with the single lead rule. -/
def wCdAny : CriteriaDict := { rules := some [wRuleLead], matchType := some "any" }

/-- `match: any` criteria with an empty rule list. -/
def wCdEmpty : CriteriaDict := { rules := some [], matchType := some "any" }

/-- The New Leads segment. -/
def wSegLeads : Segment := { name := "New Leads", criteria := .wellFormed wCdAll }

/-- A segment whose criteria match no stored customer. -/
def wSegNobody : Segment :=
  { name := "Churned"
    criteria := .wellFormed
      { rules := some [{ field := some "status", operator := some "eq",
                         value := .str "churned" }]
        matchType := some "all" } }

/-- Store for the refresh scenario: three customers with statuses
lead / customer / lead, and the New Leads segment under id 1. -/
def wStore : Store :=
  { customers := [wCustLead, wCustCustomer, wCustLead2]
    segments := [(1, wSegLeads)] }

/-- Store for the empty-audience launch scenario: the segment under id 2
matches none of the stored customers. -/
def wStoreEmpty : Store :=
  { customers := [wCustLead, wCustCustomer]
    segments := [(2, wSegNobody)] }

/-- A fixed tuple of draws, each inside its stated range. -/
def wDraws : Draws :=
  { fallbackSize := 250
    deliveryRate := 95 / 100
    emailOpenRate := 25 / 100
    emailClickRate := 15 / 100
    socialImprMult := 3
    socialOpenRate := 5 / 100
    socialClickRate := 30 / 100
    adsImprMult := 10
    adsClickRate := 3 / 100
    convRate := 10 / 100
    coin := 40 / 100
    leadRate := 20 / 100
    leadConvRate := 30 / 100
    avgOrderValue := 120 }

/-- A draft email campaign targeting the empty-audience segment, with its
zero-default result row. -/
def wCampDraft : Campaign :=
  { name := "Summer Sale 2024"
    segment_id := 2
    budget := 500
    results := some {} }

/-- The same campaign already active. -/
def wCampActive : Campaign := { wCampDraft with status := "active" }

/-- The same campaign paused. -/
def wCampPaused : Campaign := { wCampDraft with status := "paused" }

/-- A segment whose stored criteria text is rejected by `json.loads`
(reachable through `update_segment`, which stores a raw string criteria
verbatim). -/
def wSegBad : Segment :=
  { name := "Imported", criteria := .malformed "status eq lead" }

/-- Store holding the unparseable-criteria segment under id 3. -/
def wStoreBad : Store :=
  { customers := [wCustLead], segments := [(3, wSegBad)] }

/-- A draft campaign (with its zero-default result row) targeting the
unparseable-criteria segment. -/
def wCampBadDraft : Campaign :=
  { name := "Bad Criteria Launch", segment_id := 3, results := some {} }

/-!
## Claims
-/

/-- C1 counterexample: the claim as stated fails on the code — on a draft
campaign over a segment whose stored criteria do not parse, launch raises
`JSONDecodeError` out of `Segment.get_criteria` (before any status or
result write), so no campaign with status active is produced. -/
theorem c1_launch_raises_counterexample :
    wCampBadDraft.status = "draft" ∧
    launch_campaign wStoreBad wDraws 7 wCampBadDraft =
      Except.error PyError.jsonDecodeError :=
  ⟨rfl, rfl⟩

/-- C1 as amended: campaign lifecycle — `launch` on a draft campaign whose
criteria path succeeds (its segment is unknown, or its stored criteria
parse) activates it, stamps `start_date` and populates its result row via
the simulation; on a draft campaign whose segment's stored criteria do
not parse, `launch` raises the `JSONDecodeError` and writes nothing;
`launch` on a non-draft campaign returns it unchanged without consulting
the segment (status and results included); `pause` moves `active` to
`paused` and is a no-op otherwise; `resume` moves `paused` to `active`
and is a no-op otherwise, never touching results; `complete` sets
`completed` from every status. -/
theorem c1_campaign_lifecycle (st : Store) (d : Draws) (now : Time) (c : Campaign)
    (cs : List Customer) :
    (c.status = "draft" → get_segment_customers st c.segment_id = Except.ok cs →
      ∀ r, c.results = some r →
        launch_campaign st d now c =
          Except.ok { c with
            status := "active"
            start_date := some now
            results := some (simulate_results d c.campaign_type c.cost_per_send
              c.budget (launchAudience d cs) r) }) ∧
    (c.status = "draft" →
      get_segment_customers st c.segment_id = Except.error PyError.jsonDecodeError →
      launch_campaign st d now c = Except.error PyError.jsonDecodeError) ∧
    (c.status ≠ "draft" → launch_campaign st d now c = Except.ok c) ∧
    (c.status = "active" → pause_campaign c = { c with status := "paused" }) ∧
    (c.status ≠ "active" → pause_campaign c = c) ∧
    (c.status = "paused" → resume_campaign c = { c with status := "active" }) ∧
    (c.status ≠ "paused" → resume_campaign c = c) ∧
    (resume_campaign c).results = c.results ∧
    (complete_campaign now c).status = "completed" := by
  refine ⟨fun h hseg => launch_campaign_draft st d now c cs h hseg,
    ?_, ?_, ?_, ?_, ?_, ?_, ?_, rfl⟩
  · intro h hseg
    have hcond : ¬(c.status ≠ "draft") := by simpa using h
    rw [launch_campaign, if_neg hcond, hseg]
  · intro h; rw [launch_campaign, if_pos h]
  · intro h; rw [pause_campaign, if_pos h]
  · intro h; rw [pause_campaign, if_neg h]
  · intro h; rw [resume_campaign, if_pos h]
  · intro h; rw [resume_campaign, if_neg h]
  · by_cases h : c.status = "paused"
    · rw [resume_campaign, if_pos h]
    · rw [resume_campaign, if_neg h]

/-- Witness for C1 at the concrete demo campaigns: launch activates the
draft over a healthy criteria path (simulating into its zero-default
row), raises on the unparseable-criteria segment, is a no-op on the
active copy, and pause/resume/complete behave per the table. -/
theorem c1_witness :
    launch_campaign wStoreEmpty wDraws 7 wCampDraft =
      Except.ok { wCampDraft with
        status := "active"
        start_date := some 7
        results := some (simulate_results wDraws wCampDraft.campaign_type
          wCampDraft.cost_per_send wCampDraft.budget (launchAudience wDraws []) {}) } ∧
    launch_campaign wStoreBad wDraws 7 wCampBadDraft =
      Except.error PyError.jsonDecodeError ∧
    launch_campaign wStoreEmpty wDraws 7 wCampActive = Except.ok wCampActive ∧
    pause_campaign wCampActive = { wCampActive with status := "paused" } ∧
    pause_campaign wCampDraft = wCampDraft ∧
    resume_campaign wCampPaused = { wCampPaused with status := "active" } ∧
    resume_campaign wCampActive = wCampActive ∧
    (resume_campaign wCampPaused).results = wCampPaused.results ∧
    (complete_campaign 9 wCampPaused).status = "completed" := by
  have h1 := c1_campaign_lifecycle wStoreEmpty wDraws 7 wCampDraft []
  have h1b := c1_campaign_lifecycle wStoreBad wDraws 7 wCampBadDraft []
  have h2 := c1_campaign_lifecycle wStoreEmpty wDraws 7 wCampActive []
  have h3 := c1_campaign_lifecycle wStoreEmpty wDraws 9 wCampPaused []
  exact ⟨h1.1 rfl rfl {} rfl, h1b.2.1 rfl rfl,
    h2.2.2.1 (by decide), h2.2.2.2.1 rfl, h1.2.2.2.2.1 (by decide),
    h3.2.2.2.2.2.1 rfl, h2.2.2.2.2.2.2.1 (by decide),
    h3.2.2.2.2.2.2.2.1, h3.2.2.2.2.2.2.2.2⟩

/-- C2: single-rule evaluation is total — an unresolved field path (which
resolves to `None`) makes the rule false for every operator; the numeric
operators gt/gte/lt/lte coerce both sides to float, are false when either
coercion fails, and compare the coerced floats when both succeed; an
unknown operator is false. -/
theorem c2_rule_evaluation_total (c : Customer) (path op : String) (v : Value) :
    (get_nested_value c path = Value.null →
      evaluate_rule (get_nested_value c path) op v = false) ∧
    ((op = "gt" ∨ op = "gte" ∨ op = "lt" ∨ op = "lte") →
      ((get_nested_value c path).float? = Option.none ∨ v.float? = Option.none) →
      evaluate_rule (get_nested_value c path) op v = false) ∧
    (∀ a b : ℚ, (get_nested_value c path).float? = some a → v.float? = some b →
      (evaluate_rule (get_nested_value c path) "gt" v = decide (a > b) ∧
       evaluate_rule (get_nested_value c path) "gte" v = decide (a ≥ b) ∧
       evaluate_rule (get_nested_value c path) "lt" v = decide (a < b) ∧
       evaluate_rule (get_nested_value c path) "lte" v = decide (a ≤ b))) ∧
    ((op ≠ "eq" ∧ op ≠ "neq" ∧ op ≠ "gt" ∧ op ≠ "gte" ∧ op ≠ "lt" ∧ op ≠ "lte" ∧
      op ≠ "contains" ∧ op ≠ "in") →
      evaluate_rule (get_nested_value c path) op v = false) := by
  refine ⟨?_, ?_, ?_, ?_⟩
  · intro h; rw [h]; rfl
  · exact fun hop hf => evaluate_rule_coercion_failure _ op v hop hf
  · exact fun a b ha hb => evaluate_rule_numeric _ v a b ha hb
  · exact fun h => evaluate_rule_unknown_op _ op v h

/-- Witness for C2: an unknown attribute under `eq`, `gt` on the
non-numeric string status, `gt` on a numeric demographics key, and an
unknown operator. -/
theorem c2_witness :
    evaluate_rule (get_nested_value wCustLead "unknown_field") "eq" (.str "x") = false ∧
    evaluate_rule (get_nested_value wCustLead "status") "gt" (.num 5) = false ∧
    evaluate_rule (get_nested_value wCustLead "demographics.age") "gt" (.num 25) =
      decide ((30 : ℚ) > 25) ∧
    evaluate_rule (get_nested_value wCustLead "status") "between" (.str "x") = false := by
  refine ⟨(c2_rule_evaluation_total wCustLead "unknown_field" "eq" (.str "x")).1 rfl,
    (c2_rule_evaluation_total wCustLead "status" "gt" (.num 5)).2.1
      (Or.inl rfl) (Or.inl rfl),
    ((c2_rule_evaluation_total wCustLead "demographics.age" "gt" (.num 25)).2.2.1
      30 25 rfl rfl).1,
    (c2_rule_evaluation_total wCustLead "status" "between" (.str "x")).2.2.2
      ⟨by decide, by decide, by decide, by decide, by decide, by decide,
       by decide, by decide⟩⟩

/-- C3: criteria combination — an empty rule list matches every customer
(universal acceptance, also under `match: any`); with `match: all` the
criteria hold iff every rule holds (true being the empty-conjunction
identity); with `match: any` and at least one rule they hold iff some rule
holds (the zero-rule case is governed by the universal-acceptance
clause). -/
theorem c3_criteria_combination (c : Customer) (cd : CriteriaDict) :
    (cd.rules.getD [] = [] → evaluate_segment_criteria c (.wellFormed cd) = true) ∧
    (cd.matchType.getD "all" = "all" →
      (evaluate_segment_criteria c (.wellFormed cd) = true ↔
        ∀ r ∈ cd.rules.getD [], ruleHolds c r = true)) ∧
    (cd.matchType.getD "all" = "any" → cd.rules.getD [] ≠ [] →
      (evaluate_segment_criteria c (.wellFormed cd) = true ↔
        ∃ r ∈ cd.rules.getD [], ruleHolds c r = true)) := by
  refine ⟨?_, ?_, ?_⟩
  · intro h
    simp [evaluate_segment_criteria, h]
  · intro hall
    by_cases hemp : cd.rules.getD [] = []
    · simp [evaluate_segment_criteria, hemp]
    · have hne : (cd.rules.getD []).isEmpty = false := by
        simpa [List.isEmpty_iff] using hemp
      simp [evaluate_segment_criteria, hne, hall, List.all_map, List.all_eq_true,
        Function.comp, ruleHolds]
  · intro hany hemp
    have hne : (cd.rules.getD []).isEmpty = false := by
      simpa [List.isEmpty_iff] using hemp
    have hcond : ¬(cd.matchType.getD "all" = "all") := by
      rw [hany]; decide
    simp [evaluate_segment_criteria, hne, hcond, List.any_map, List.any_eq_true,
      Function.comp, ruleHolds]

/-- Witness for C3 on the demo lead: empty rules accept, and the `all` /
`any` combinators agree with the quantified forms on the one-rule
criteria. -/
theorem c3_witness :
    evaluate_segment_criteria wCustLead (.wellFormed wCdEmpty) = true ∧
    (evaluate_segment_criteria wCustLead (.wellFormed wCdAll) = true ↔
      ∀ r ∈ wCdAll.rules.getD [], ruleHolds wCustLead r = true) ∧
    (evaluate_segment_criteria wCustLead (.wellFormed wCdAny) = true ↔
      ∃ r ∈ wCdAny.rules.getD [], ruleHolds wCustLead r = true) :=
  ⟨(c3_criteria_combination wCustLead wCdEmpty).1 rfl,
   (c3_criteria_combination wCustLead wCdAll).2.1 rfl,
   (c3_criteria_combination wCustLead wCdAny).2.2 rfl (List.cons_ne_nil _ _)⟩

/-- C4: a criteria payload on which JSON parsing fails is swallowed by the
bare `except` and every customer is included — the evaluator returns true
and raises nothing. -/
theorem c4_malformed_criteria_matches_all (c : Customer) (payload : String) :
    evaluate_segment_criteria c (.malformed payload) = true := rfl

/-- C5: the per-campaign derived metrics follow the six stated formulas
(as percentages) and each is exactly 0 when its denominator is 0, so the
computation never divides by zero. -/
theorem c5_metrics_guarded_rates (r : CampaignResult) :
    ((calculate_metrics r).delivery_rate =
      if r.total_sent > 0 then (r.delivered : ℚ) / (r.total_sent : ℚ) * 100 else 0) ∧
    ((calculate_metrics r).open_rate =
      if r.delivered > 0 then (r.opens : ℚ) / (r.delivered : ℚ) * 100 else 0) ∧
    ((calculate_metrics r).click_rate =
      if r.opens > 0 then (r.clicks : ℚ) / (r.opens : ℚ) * 100 else 0) ∧
    ((calculate_metrics r).ctr =
      if r.delivered > 0 then (r.clicks : ℚ) / (r.delivered : ℚ) * 100 else 0) ∧
    ((calculate_metrics r).conversion_rate =
      if r.clicks > 0 then (r.conversions : ℚ) / (r.clicks : ℚ) * 100 else 0) ∧
    ((calculate_metrics r).roi =
      if r.total_cost > 0 then (r.revenue_attributed - r.total_cost) / r.total_cost * 100
      else 0) ∧
    (r.total_sent = 0 → (calculate_metrics r).delivery_rate = 0) ∧
    (r.delivered = 0 → (calculate_metrics r).open_rate = 0 ∧ (calculate_metrics r).ctr = 0) ∧
    (r.opens = 0 → (calculate_metrics r).click_rate = 0) ∧
    (r.clicks = 0 → (calculate_metrics r).conversion_rate = 0) ∧
    (r.total_cost = 0 → (calculate_metrics r).roi = 0) := by
  refine ⟨rfl, rfl, rfl, rfl, rfl, rfl, ?_, ?_, ?_, ?_, ?_⟩ <;>
    intro h <;> simp [calculate_metrics, h]

/-- Witness for C5 on the zero-default result row: every rate is 0. -/
theorem c5_witness :
    (calculate_metrics ({} : CampaignResult)).delivery_rate = 0 ∧
    (calculate_metrics ({} : CampaignResult)).open_rate = 0 ∧
    (calculate_metrics ({} : CampaignResult)).ctr = 0 ∧
    (calculate_metrics ({} : CampaignResult)).click_rate = 0 ∧
    (calculate_metrics ({} : CampaignResult)).conversion_rate = 0 ∧
    (calculate_metrics ({} : CampaignResult)).roi = 0 := by
  obtain ⟨-, -, -, -, -, -, h7, h8, h9, h10, h11⟩ :=
    c5_metrics_guarded_rates ({} : CampaignResult)
  exact ⟨h7 rfl, (h8 rfl).1, (h8 rfl).2, h9 rfl, h10 rfl, h11 rfl⟩

/-- C6: a launch of a draft campaign completes whenever its criteria path
does (`get_segment_customers` returns without raising) — over a segment
matching zero customers (`ok []`) the simulated audience is the fallback
draw in [100, 500]; and after every such launch, for all draws in their
stated ranges, `delivered ≤ total_sent` and
`bounced = total_sent − delivered`. On a segment whose stored criteria do
not parse no launch completes (see the C1 counterexample), so the
claim's "after launching" premise is never met there. -/
theorem c6_launch_simulation_bounds (st : Store) (d : Draws) (now : Time) (c : Campaign)
    (r0 : CampaignResult) (cs : List Customer)
    (hdraft : c.status = "draft") (hres : c.results = some r0)
    (hseg : get_segment_customers st c.segment_id = Except.ok cs)
    (hfb1 : 100 ≤ d.fallbackSize) (hfb2 : d.fallbackSize ≤ 500)
    (hdel1 : (92 : ℚ) / 100 ≤ d.deliveryRate) (hdel2 : d.deliveryRate ≤ (98 : ℚ) / 100) :
    ∃ c' r, launch_campaign st d now c = Except.ok c' ∧ c'.results = some r ∧
      (cs = [] → 100 ≤ r.total_sent ∧ r.total_sent ≤ 500) ∧
      r.delivered ≤ r.total_sent ∧
      r.bounced = r.total_sent - r.delivered := by
  have hlaunch := launch_campaign_draft st d now c cs hdraft hseg r0 hres
  refine ⟨_, _, hlaunch, rfl, ?_, ?_, ?_⟩
  · intro hempty
    obtain ⟨hts, -, -⟩ := simulate_results_delivery d c.campaign_type c.cost_per_send
      c.budget (launchAudience d cs) r0
    rw [hts, hempty, launchAudience]
    simp [hfb1, hfb2]
  · obtain ⟨hts, hd, -⟩ := simulate_results_delivery d c.campaign_type c.cost_per_send
      c.budget (launchAudience d cs) r0
    rw [hts, hd]
    exact pyInt_mul_le _ _ (launchAudience_nonneg d cs hfb1)
      (le_trans (by norm_num) hdel1) (le_trans hdel2 (by norm_num))
  · obtain ⟨hts, hd, hb⟩ := simulate_results_delivery d c.campaign_type c.cost_per_send
      c.budget (launchAudience d cs) r0
    rw [hts, hd, hb]

/-- Witness for C6 at the concrete campaign whose segment matches zero
customers, with in-range draws. -/
theorem c6_witness :
    ∃ c' r, launch_campaign wStoreEmpty wDraws 7 wCampDraft = Except.ok c' ∧
      c'.results = some r ∧
      (([] : List Customer) = [] → 100 ≤ r.total_sent ∧ r.total_sent ≤ 500) ∧
      r.delivered ≤ r.total_sent ∧
      r.bounced = r.total_sent - r.delivered :=
  c6_launch_simulation_bounds wStoreEmpty wDraws 7 wCampDraft {} [] rfl rfl rfl
    (by decide) (by decide) (by norm_num [wDraws]) (by norm_num [wDraws])

/-- A result row on which opens/sent and opens/delivered differ. -/
def wC7Result : CampaignResult := { total_sent := 200, delivered := 100, opens := 50 }

/-- C7 counterexample: with one result row (sent 200, delivered 100,
opens 50) the overview's overall open rate is 25 (opens/sent), not the
claimed opens/delivered = 50 — the overview divides total opens by total
sent, and never sums `delivered` at all. -/
theorem c7_overview_open_rate_counterexample :
    (get_analytics_overview [] [] [] [wC7Result]).overall_open_rate ≠
      ((([wC7Result].map (fun r => r.opens)).sum : ℚ) /
        (([wC7Result].map (fun r => r.delivered)).sum : ℚ)) * 100 := by
  simp [get_analytics_overview, wC7Result]
  norm_num

/-- C7 as amended: the overview's aggregate rates are computed over the
summed funnel totals with guarded division — overall open rate divides
total opens by total *sent* (not delivered); click rate, conversion rate
and ROI follow the claimed formulas; each rate is 0 when its denominator
is 0. -/
theorem c7_overview_rates_amended (customers : List Customer) (segments : List Segment)
    (campaigns : List Campaign) (results : List CampaignResult) :
    ((get_analytics_overview customers segments campaigns results).overall_open_rate =
      if (get_analytics_overview customers segments campaigns results).total_sent > 0 then
        ((get_analytics_overview customers segments campaigns results).total_opens : ℚ) /
          ((get_analytics_overview customers segments campaigns results).total_sent : ℚ) *
          100
      else 0) ∧
    ((get_analytics_overview customers segments campaigns results).overall_click_rate =
      if (get_analytics_overview customers segments campaigns results).total_opens > 0 then
        ((get_analytics_overview customers segments campaigns results).total_clicks : ℚ) /
          ((get_analytics_overview customers segments campaigns results).total_opens : ℚ) *
          100
      else 0) ∧
    ((get_analytics_overview customers segments campaigns results).overall_conversion_rate =
      if (get_analytics_overview customers segments campaigns results).total_clicks > 0 then
        ((get_analytics_overview customers segments campaigns
            results).total_conversions : ℚ) /
          ((get_analytics_overview customers segments campaigns results).total_clicks : ℚ) *
          100
      else 0) ∧
    ((get_analytics_overview customers segments campaigns results).overall_roi =
      if (get_analytics_overview customers segments campaigns results).total_cost > 0 then
        ((get_analytics_overview customers segments campaigns results).total_revenue -
            (get_analytics_overview customers segments campaigns results).total_cost) /
          (get_analytics_overview customers segments campaigns results).total_cost * 100
      else 0) ∧
    ((get_analytics_overview customers segments campaigns results).total_sent = 0 →
      (get_analytics_overview customers segments campaigns results).overall_open_rate = 0) ∧
    ((get_analytics_overview customers segments campaigns results).total_opens = 0 →
      (get_analytics_overview customers segments campaigns results).overall_click_rate
        = 0) ∧
    ((get_analytics_overview customers segments campaigns results).total_clicks = 0 →
      (get_analytics_overview customers segments campaigns results).overall_conversion_rate
        = 0) ∧
    ((get_analytics_overview customers segments campaigns results).total_cost = 0 →
      (get_analytics_overview customers segments campaigns results).overall_roi = 0) := by
  refine ⟨rfl, rfl, rfl, rfl, ?_, ?_, ?_, ?_⟩ <;>
    intro h <;> simp [get_analytics_overview] at h ⊢ <;> simp [h]

/-- Witness for C7's amended statement over the empty tables: all totals
are 0, so every guarded rate is 0. -/
theorem c7_witness :
    (get_analytics_overview [] [] [] []).overall_open_rate = 0 ∧
    (get_analytics_overview [] [] [] []).overall_click_rate = 0 ∧
    (get_analytics_overview [] [] [] []).overall_conversion_rate = 0 ∧
    (get_analytics_overview [] [] [] []).overall_roi = 0 := by
  obtain ⟨-, -, -, -, h5, h6, h7, h8⟩ := c7_overview_rates_amended [] [] [] []
  exact ⟨h5 rfl, h6 rfl, h7 rfl, h8 rfl⟩

/-- C8 counterexample: the claim as stated fails on the code — on a
segment whose stored criteria text does not parse, `refresh_segment`
raises the `JSONDecodeError` of `Segment.get_criteria` (reached through
`get_segment_customers`) and never writes `customer_count`. -/
theorem c8_refresh_raises_counterexample :
    wStoreBad.getSegment 3 = some wSegBad ∧
    refresh_segment wStoreBad 3 = Except.error PyError.jsonDecodeError :=
  ⟨rfl, rfl⟩

/-- C8 as amended: on every found segment whose stored criteria parse,
`refresh_segment` rewrites exactly the `customer_count` column with the
number of customers matching those criteria, leaving every other field of
the segment unchanged (and materializing no membership); on a found
segment whose stored criteria do not parse it raises the
`JSONDecodeError` and writes nothing. -/
theorem c8_refresh_segment_count (st : Store) (sid : Int) (seg : Segment)
    (cd : CriteriaDict) (h : st.getSegment sid = some seg)
    (hcd : seg.get_criteria = some cd) :
    refresh_segment st sid =
      Except.ok (some { seg with customer_count :=
        ((st.customers.filter
          (fun c => evaluate_segment_criteria c (.wellFormed cd))).length : Int) }) := by
  simp [refresh_segment, get_segment_customers, h, hcd]

/-- Witness for C8: the lead / customer / lead scenario sets
`customer_count` to 2. -/
theorem c8_witness :
    wStore.getSegment 1 = some wSegLeads ∧
    refresh_segment wStore 1 = Except.ok (some { wSegLeads with customer_count := 2 }) := by
  have h := c8_refresh_segment_count wStore 1 wSegLeads wCdAll rfl rfl
  refine ⟨rfl, ?_⟩
  rw [h]
  rfl

/-- C9: `complete_campaign` on a never-launched draft campaign succeeds
unconditionally, setting status to completed and `end_date` to the call
time while leaving the result row untouched — in particular a
zero-default result row stays at its zero defaults. -/
theorem c9_complete_draft_campaign (now : Time) (c : Campaign)
    (_hdraft : c.status = "draft") :
    (complete_campaign now c).status = "completed" ∧
    (complete_campaign now c).end_date = some now ∧
    (complete_campaign now c).results = c.results ∧
    (c.results = some ({} : CampaignResult) →
      (complete_campaign now c).results = some ({} : CampaignResult)) :=
  ⟨rfl, rfl, rfl, fun hr => hr⟩

/-- Witness for C9 on the concrete draft campaign. -/
theorem c9_witness :
    (complete_campaign 5 wCampDraft).status = "completed" ∧
    (complete_campaign 5 wCampDraft).end_date = some 5 ∧
    (complete_campaign 5 wCampDraft).results = wCampDraft.results ∧
    (complete_campaign 5 wCampDraft).results = some ({} : CampaignResult) := by
  obtain ⟨h1, h2, h3, h4⟩ := c9_complete_draft_campaign 5 wCampDraft rfl
  exact ⟨h1, h2, h3, h4 rfl⟩

/-- C10: a resolved field value of `None` (for example an attribute stored
as null) can satisfy no rule — every operator, `neq` included, evaluates
to false on it. -/
theorem c10_null_attribute_never_matches (c : Customer) (path op : String) (v : Value)
    (h : get_nested_value c path = Value.null) :
    evaluate_rule (get_nested_value c path) op v = false := by
  rw [h]; rfl

/-- Witness for C10: the customer's phone is stored as null, yet the
`neq` rule against a different value is still false. -/
theorem c10_witness :
    get_nested_value wCustCustomer "phone" = Value.null ∧
    evaluate_rule (get_nested_value wCustCustomer "phone") "neq"
      (.str "+1-555-0100") = false :=
  ⟨rfl, c10_null_attribute_never_matches wCustCustomer "phone" "neq"
    (.str "+1-555-0100") rfl⟩

end CrmMarketing
